import Mathlib

/-!
# Verification of `Intel3AParameter` (ipu6-camera-hal)

A shallow embedding of `src/src/3a/intel3a/Intel3AParameter.cpp` from the
`ipu6-camera-hal` repository, together with theorems settling the frozen
claims of the specification against the code.

Modelling conventions:
* C `float`/`double` request fields are modelled as `ℚ`; the only transcendental
  computation (`pow(10, g/20)`) is modelled over `ℝ` via `Real.rpow`.
* Fixed-size C arrays indexed by sub-exposure slot are modelled as total
  functions `ℕ → _`; only indices `< num_exposures` are meaningful, exactly as
  in the code's loops.
* Out-parameter platform queries (`PlatformData::getSupportAeExposureTimeRange`,
  `getSupportAeGainRange`, `getExposureNum`) and the CCA calibration handle
  (`IntelCca::getInstance` / `getCMC`) are repository code outside the provided
  sources; they are modelled as a read-only `Platform` snapshot per call
  (per the spec: "Shared resources ... are read-only snapshots per call"),
  with `Option` capturing "query failed / handle null".
* Helper functions from `iutils/Utils.h` and `AiqUtils` that are not among the
  provided sources (`CLIP`, coordinate remapping, speed-mode-to-time) are
  modelled from the spec; their doc comments say so explicitly.
-/

namespace Icamera

/-! ## Enumerations (from the icamera public types and `ia_aiq` types) -/

/-- `camera_ae_mode_t`. -/
inductive AeMode | AUTO | MANUAL
  deriving DecidableEq, Repr

/-- `camera_ae_distribution_priority_t` (`DISTRIBUTION_*`). -/
inductive AeDistributionPriority | AUTO | SHUTTER | ISO | APERTURE
  deriving DecidableEq, Repr

/-- `ia_aiq_ae_exposure_distribution_priority`. -/
inductive IaAeDistributionPriority | dist_auto | dist_shutter | dist_iso | dist_aperture
  deriving DecidableEq, Repr

/-- `camera_antibanding_mode_t`. -/
inductive AntibandingMode | AUTO | HZ50 | HZ60 | OFF
  deriving DecidableEq, Repr

/-- `ia_aiq_ae_flicker_reduction`. -/
inductive IaFlickerReduction | auto | fifty_hz | sixty_hz | off
  deriving DecidableEq, Repr

/-- `camera_converge_speed_mode_t` (`CONVERGE_SPEED_MODE_AIQ` / `_HAL`). -/
inductive ConvergeSpeedMode | AIQ | HAL
  deriving DecidableEq, Repr

/-- `camera_converge_speed_t` (`CONVERGE_NORMAL` / `CONVERGE_MID` / `CONVERGE_LOW`). -/
inductive ConvergeSpeed | NORMAL | MID | LOW
  deriving DecidableEq, Repr

/-- `camera_blc_area_mode_t`. -/
inductive BlcAreaMode | OFF | ON
  deriving DecidableEq, Repr

/-- `camera_awb_mode_t`. -/
inductive AwbMode
  | AUTO | INCANDESCENT | FLUORESCENT | DAYLIGHT | FULL_OVERCAST | PARTLY_OVERCAST
  | SUNSET | VIDEO_CONFERENCE | MANUAL_CCT_RANGE | MANUAL_WHITE_POINT | MANUAL_GAIN
  | MANUAL_COLOR_TRANSFORM
  deriving DecidableEq, Repr

/-- `ia_aiq_awb_operation_mode`. -/
inductive IaAwbOperationMode
  | auto | daylight | partly_overcast | fully_overcast | fluorescent | incandescent
  | sunset | video_conference | manual_cct_range | manual_white
  deriving DecidableEq, Repr

/-- `camera_af_mode_t`. -/
inductive AfMode | OFF | AUTO | MACRO | CONTINUOUS_VIDEO | CONTINUOUS_PICTURE
  deriving DecidableEq, Repr

/-- `camera_af_trigger_t`. -/
inductive AfTrigger | IDLE | START | CANCEL
  deriving DecidableEq, Repr

/-- `ia_aiq_af_operation_mode` (the values this file uses). -/
inductive IaAfOperationMode | auto | infinity | manual
  deriving DecidableEq, Repr

/-- `ia_aiq_af_status` (the engine's reported scan status). -/
inductive IaAfStatus | idle | local_search | extended_search | success | fail
  deriving DecidableEq, Repr

/-- `ia_aiq_manual_focus_action`. -/
inductive IaManualFocusAction | action_none | action_set_distance
  deriving DecidableEq, Repr

/-- `camera_frame_usage_mode_t`. -/
inductive FrameUsage | PREVIEW | VIDEO | STILL | CONTINUOUS
  deriving DecidableEq, Repr

/-- `ia_aiq_frame_use`. -/
inductive IaFrameUse | preview | video | still | continuous
  deriving DecidableEq, Repr

/-! ## Plain data structures -/

/-- `camera_range_t` (float min/max). -/
structure CamRange where
  min : ℚ
  max : ℚ
  deriving DecidableEq, Repr

/-- `camera_window_t` (the fields this file reads). -/
structure CamWindow where
  left : ℤ
  top : ℤ
  right : ℤ
  bottom : ℤ
  deriving DecidableEq, Repr

/-- `camera_coordinate_t`. -/
structure CamCoordinate where
  x : ℤ
  y : ℤ
  deriving DecidableEq, Repr

/-- `camera_coordinate_system_t`. -/
structure CamCoordinateSystem where
  left : ℤ
  top : ℤ
  right : ℤ
  bottom : ℤ
  deriving DecidableEq, Repr

/-- `camera_resolution_t`. -/
structure CamResolution where
  width : ℤ
  height : ℤ
  deriving DecidableEq, Repr

/-- `ia_rectangle` (`focus_rect`). -/
structure IaRectangle where
  left : ℤ
  top : ℤ
  right : ℤ
  bottom : ℤ
  deriving DecidableEq, Repr

/-- `camera_awb_gains_t`. -/
structure AwbGains where
  r_gain : ℤ
  g_gain : ℤ
  b_gain : ℤ
  deriving DecidableEq, Repr

/-- `camera_color_transform_t`: a 3x3 color transform matrix. -/
structure ColorTransform where
  m : Fin 3 → Fin 3 → ℚ
  deriving Repr

/-- `camera_color_gains_t`: per-channel (R, Gr, Gb, B) gains. -/
structure ColorGains where
  color_gains_rggb : Fin 4 → ℚ
  deriving Repr

/-- `ia_aiq_ae_manual_limits`. -/
structure AeManualLimits where
  manual_exposure_time_min : ℤ
  manual_exposure_time_max : ℤ
  manual_frame_time_us_min : ℤ
  manual_frame_time_us_max : ℤ
  manual_iso_min : ℤ
  manual_iso_max : ℤ
  deriving DecidableEq, Repr

/-- `ia_aiq_manual_focus_parameters`. -/
structure ManualFocusParameters where
  manual_focus_action : IaManualFocusAction
  manual_focus_distance : ℤ
  manual_lens_position : ℤ
  deriving DecidableEq, Repr

/-- The `cca::cca_af_results` fields this file reads. -/
structure CcaAfResults where
  status : IaAfStatus
  deriving DecidableEq, Repr

/-- The `cca::cca_cmc` fields this file reads (`base_iso`). -/
structure CcaCmc where
  base_iso : ℤ
  deriving DecidableEq, Repr

/-! ## Engine parameter blocks (the fields this file touches) -/

/-- The AE parameter block `mAeParams` (`cca::cca_ae_input_params`),
restricted to the fields `Intel3AParameter` reads or writes. -/
structure AeParams where
  num_exposures : ℕ
  frame_use : IaFrameUse
  flicker_reduction_mode : IaFlickerReduction
  ev_shift : ℚ
  manual_exposure_time_us : ℕ → ℤ
  manual_analog_gain : ℕ → ℝ
  manual_iso : ℕ → ℤ
  manual_limits : AeManualLimits
  exposure_distribution_priority : IaAeDistributionPriority
  manual_convergence_time : ℚ
  exposure_coordinate : CamCoordinate

/-- The AF parameter block `mAfParams` (`cca::cca_af_input_params`),
restricted to the fields `Intel3AParameter` reads or writes. -/
structure AfParams where
  frame_use : IaFrameUse
  lens_position : ℤ
  lens_movement_start_timestamp : ℕ
  focus_mode : IaAfOperationMode
  focus_rect : IaRectangle
  manual_focus_parameters : ManualFocusParameters
  trigger_new_search : Bool
  deriving DecidableEq, Repr

/-- The AWB parameter block `mAwbParams` (`cca::cca_awb_input_params`),
restricted to the fields `Intel3AParameter` reads or writes. -/
structure AwbParams where
  scene_mode : IaAwbOperationMode
  manual_cct_range_min : ℤ
  manual_cct_range_max : ℤ
  manual_white_coordinate : CamCoordinate
  manual_convergence_time : ℚ
  deriving DecidableEq, Repr

/-! ## The request (`aiq_parameter_t`) and the platform snapshot -/

/-- The per-frame request `aiq_parameter_t`, restricted to the fields
`Intel3AParameter` reads. -/
structure AiqParameter where
  frameUsage : FrameUsage
  aeMode : AeMode
  aeDistributionPriority : AeDistributionPriority
  manualExpTimeUs : ℤ
  manualGain : ℚ
  manualIso : ℤ
  evShift : ℚ
  antibandingMode : AntibandingMode
  fps : ℚ
  aeFpsRange : CamRange
  exposureTimeRange : CamRange
  sensitivityGainRange : CamRange
  aeConvergeSpeedMode : ConvergeSpeedMode
  aeConvergeSpeed : ConvergeSpeed
  blcAreaMode : BlcAreaMode
  aeRegions : List CamWindow
  resolution : CamResolution
  awbMode : AwbMode
  cctRange : CamRange
  whitePoint : CamCoordinate
  awbManualGain : AwbGains
  awbGainShift : AwbGains
  manualColorMatrix : ColorTransform
  manualColorGains : ColorGains
  awbConvergeSpeedMode : ConvergeSpeedMode
  awbConvergeSpeed : ConvergeSpeed
  afMode : AfMode
  afTrigger : AfTrigger
  afRegions : List CamWindow
  lensPosition : ℤ
  lensMovementStartTimestamp : ℕ
  focusDistance : ℚ
  minFocusDistance : ℚ

/-- The per-call snapshot of the platform / calibration collaborators
(`PlatformData` and `IntelCca`), which are repository code outside the
provided sources.  `none` models a failed query ("unsupported") or a null
handle, as in §6/§7 of the spec. -/
structure Platform where
  aeExposureTimeRange : Option CamRange
  aeGainRange : Option CamRange
  exposureNum : ℕ
  cca : Option (Option CcaCmc)
  deriving DecidableEq, Repr

/-! ## Persistent state: the `Intel3AParameter` object -/

/-- The persistent per-camera state of `Intel3AParameter` (the member fields
this file's logic reads or writes). -/
structure Intel3AParameter where
  mAeParams : AeParams
  mAfParams : AfParams
  mAwbParams : AwbParams
  mUseManualAwbGain : Bool
  mUseManualColorMatrix : Bool
  mAePerTicks : ℤ
  mAwbPerTicks : ℤ
  mAfForceLock : Bool
  mDuringAfTriggerScan : Bool
  mAfTrigger : AfTrigger
  mAfMode : AfMode
  mColorMatrix : ColorTransform
  mColorGains : ColorGains
  mManualGains : AwbGains
  mAwbGainShift : AwbGains

/-! ## Numeric helpers -/

/-- Truncation toward zero, as C's cast from a floating value to an integer. -/
def truncQ (x : ℚ) : ℤ := if 0 ≤ x then ⌊x⌋ else ⌈x⌉

/-- Modelled from the spec: the clip helper `CLIP(value, max, min)` from
`iutils/Utils.h` is not among the provided sources; per the spec (§9:
"treat this as clamp between platform min and max") it clamps its first
argument between the third (low bound) and second (high bound). -/
def CLIP (a mx mn : ℚ) : ℚ := if a > mx then mx else if a < mn then mn else a

/-- `INT_MAX`: the largest 32-bit signed integer. -/
def INT_MAX : ℤ := 2147483647

/-- Modelled from the spec: `AiqUtils::convertSpeedModeToTime` is not among the
provided sources; per the spec (§4.1) it maps the converge-speed preference to
"a target convergence duration derived from the preference" — a positive
duration (§3: "convergence time is either a positive duration or the
sentinel").  The exact durations do not matter to any claim; only that they
are derived from the preference alone. -/
def convertSpeedModeToTime : ConvergeSpeed → ℚ
  | ConvergeSpeed.NORMAL => 1
  | ConvergeSpeed.MID => 2
  | ConvergeSpeed.LOW => 3

/-- Modelled from the spec: `AiqUtils::convertToIaCoordinate` is not among the
provided sources; per the spec it remaps "a coordinate in application space
... into engine coordinate space using the frame resolution as the mapping
domain".  The engine coordinate space has a fixed extent of 8192 on each
axis; the remap is the linear rescale. -/
def convertToIaCoordinate (sys : CamCoordinateSystem) (c : CamCoordinate) : CamCoordinate :=
  { x := (c.x - sys.left) * 8192 / (sys.right - sys.left),
    y := (c.y - sys.top) * 8192 / (sys.bottom - sys.top) }

/-- Modelled from the spec: `AiqUtils::convertToIaWindow` is not among the
provided sources; per the spec it remaps a rectangle from application
coordinates into engine coordinates using the frame resolution as the
mapping domain (cornerwise, via the coordinate remap). -/
def convertToIaWindow (sys : CamCoordinateSystem) (w : CamWindow) : CamWindow :=
  let tl := convertToIaCoordinate sys { x := w.left, y := w.top }
  let br := convertToIaCoordinate sys { x := w.right, y := w.bottom }
  { left := tl.x, top := tl.y, right := br.x, bottom := br.y }

/-- Modelled from the spec: `AiqUtils::convertFrameUsageToIaFrameUsage` is not
among the provided sources; it is the evident 1:1 mapping from the request's
frame-usage enum to the engine's frame-use enum. -/
def convertFrameUsageToIaFrameUsage : FrameUsage → IaFrameUse
  | FrameUsage.PREVIEW => IaFrameUse.preview
  | FrameUsage.VIDEO => IaFrameUse.video
  | FrameUsage.STILL => IaFrameUse.still
  | FrameUsage.CONTINUOUS => IaFrameUse.continuous

/-- The `camera_coordinate_system_t frameCoord = {0, 0, param.resolution.width,
param.resolution.height}` local constructed at each remapping site. -/
def frameCoordOf (p : AiqParameter) : CamCoordinateSystem :=
  { left := 0, top := 0, right := p.resolution.width, bottom := p.resolution.height }

/-- The `focus_rect = {window.left, window.top, window.right, window.bottom}`
assignment: a window repackaged as an `ia_rectangle`. -/
def rectOfWindow (w : CamWindow) : IaRectangle :=
  { left := w.left, top := w.top, right := w.right, bottom := w.bottom }

/-- Writing one value into the sub-exposure slots `0, ..., n-1` of an array,
as the `for (i = 0; i < n; i++)` loops in the code. -/
def writeSlots {α : Type} (a : ℕ → α) (n : ℕ) (v : α) : ℕ → α :=
  fun i => if i < n then v else a i

/-! ## Default / initial values (`initAeParameter` / `initAfParameter` /
`initAwbParameter`) -/

/-- `MAX_FOCUS_DISTANCE` (default `manual_focus_distance` set by
`initAfParameter`); the constant's numeric value is defined outside the
provided sources and does not matter to any claim. -/
def MAX_FOCUS_DISTANCE : ℤ := 5000

/-- `Intel3AParameter::initAeParameter`: the AE parameter defaults. -/
def initAeParameter (s : Intel3AParameter) : Intel3AParameter :=
  { s with mAeParams :=
    { num_exposures := 1
      frame_use := IaFrameUse.video
      flicker_reduction_mode := IaFlickerReduction.auto
      ev_shift := 0
      manual_exposure_time_us := fun _ => 0
      manual_analog_gain := fun _ => 0
      manual_iso := fun _ => 0
      manual_limits := s.mAeParams.manual_limits
      exposure_distribution_priority := IaAeDistributionPriority.dist_auto
      manual_convergence_time := -1
      exposure_coordinate := { x := 0, y := 0 } } }

/-- `Intel3AParameter::initAfParameter`: the AF parameter defaults. -/
def initAfParameter (s : Intel3AParameter) : Intel3AParameter :=
  { s with mAfParams :=
    { frame_use := IaFrameUse.video
      lens_position := 0
      lens_movement_start_timestamp := 0
      focus_mode := IaAfOperationMode.infinity
      focus_rect := { left := 0, top := 0, right := 0, bottom := 0 }
      manual_focus_parameters :=
        { manual_focus_action := IaManualFocusAction.action_none
          manual_focus_distance := MAX_FOCUS_DISTANCE
          manual_lens_position := 0 }
      trigger_new_search := false } }

/-- `Intel3AParameter::initAwbParameter`: the AWB parameter defaults. -/
def initAwbParameter (s : Intel3AParameter) : Intel3AParameter :=
  { s with
    mAwbParams := { s.mAwbParams with
      scene_mode := IaAwbOperationMode.auto
      manual_convergence_time := -1 }
    mUseManualAwbGain := false
    mManualGains := { r_gain := 0, g_gain := 0, b_gain := 0 }
    mAwbGainShift := { r_gain := 0, g_gain := 0, b_gain := 0 } }

/-- The all-zero state produced by the constructor's `CLEAR` calls (memory
zeroed; enums at their first enumerator). -/
def clearedState : Intel3AParameter :=
  { mAeParams :=
    { num_exposures := 0
      frame_use := IaFrameUse.preview
      flicker_reduction_mode := IaFlickerReduction.auto
      ev_shift := 0
      manual_exposure_time_us := fun _ => 0
      manual_analog_gain := fun _ => 0
      manual_iso := fun _ => 0
      manual_limits :=
        { manual_exposure_time_min := 0, manual_exposure_time_max := 0
          manual_frame_time_us_min := 0, manual_frame_time_us_max := 0
          manual_iso_min := 0, manual_iso_max := 0 }
      exposure_distribution_priority := IaAeDistributionPriority.dist_auto
      manual_convergence_time := 0
      exposure_coordinate := { x := 0, y := 0 } }
    mAfParams :=
    { frame_use := IaFrameUse.preview
      lens_position := 0
      lens_movement_start_timestamp := 0
      focus_mode := IaAfOperationMode.auto
      focus_rect := { left := 0, top := 0, right := 0, bottom := 0 }
      manual_focus_parameters :=
        { manual_focus_action := IaManualFocusAction.action_none
          manual_focus_distance := 0
          manual_lens_position := 0 }
      trigger_new_search := false }
    mAwbParams :=
    { scene_mode := IaAwbOperationMode.auto
      manual_cct_range_min := 0
      manual_cct_range_max := 0
      manual_white_coordinate := { x := 0, y := 0 }
      manual_convergence_time := 0 }
    mUseManualAwbGain := false
    mUseManualColorMatrix := false
    mAePerTicks := 1
    mAwbPerTicks := 1
    mAfForceLock := false
    mDuringAfTriggerScan := false
    mAfTrigger := AfTrigger.IDLE
    mAfMode := AfMode.OFF
    mColorMatrix := { m := fun _ _ => 0 }
    mColorGains := { color_gains_rggb := fun _ => 0 }
    mManualGains := { r_gain := 0, g_gain := 0, b_gain := 0 }
    mAwbGainShift := { r_gain := 0, g_gain := 0, b_gain := 0 } }

/-- `Intel3AParameter::init`: sets the default parameters and state. -/
def initState : Intel3AParameter :=
  let s := initAwbParameter (initAfParameter (initAeParameter clearedState))
  { s with
    mAePerTicks := 1
    mAwbPerTicks := 1
    mUseManualColorMatrix := false
    mColorMatrix := { m := fun _ _ => 0 }
    mColorGains := { color_gains_rggb := fun _ => 0 }
    mAfMode := AfMode.AUTO
    mAfForceLock := false
    mAfTrigger := AfTrigger.IDLE
    mDuringAfTriggerScan := false }

/-! ## AF update (`updateAfParameter` and its trigger handlers) -/

/-- `Intel3AParameter::updateAfParameterForAfTriggerStart`. -/
def updateAfParameterForAfTriggerStart (s : Intel3AParameter) : Intel3AParameter :=
  let s := { s with mDuringAfTriggerScan := true, mAfForceLock := false }
  match s.mAfMode with
  | AfMode.AUTO | AfMode.MACRO =>
      -- Start user af scan in this frame.
      { s with mAfParams := { s.mAfParams with
          focus_mode := IaAfOperationMode.auto
          trigger_new_search := true } }
  | AfMode.CONTINUOUS_VIDEO =>
      -- Lock AF immediately
      { s with mAfForceLock := true }
  | AfMode.CONTINUOUS_PICTURE =>
      -- Continue the current scan and check the af result later
      s
  | _ => s

/-- `Intel3AParameter::updateAfParameterForAfTriggerCancel`. -/
def updateAfParameterForAfTriggerCancel (s : Intel3AParameter) : Intel3AParameter :=
  let s := { s with mDuringAfTriggerScan := false, mAfForceLock := false }
  match s.mAfMode with
  | AfMode.AUTO | AfMode.MACRO =>
      -- Stop AF scan triggered by user.
      { s with mAfParams := { s.mAfParams with
          focus_mode := IaAfOperationMode.infinity } }
  | _ => s

/-- The lens block of `updateAfParameter` (its first two statements). -/
def afLensStep (s : Intel3AParameter) (p : AiqParameter) : Intel3AParameter :=
  { s with mAfParams := { s.mAfParams with
      lens_position := p.lensPosition
      lens_movement_start_timestamp := p.lensMovementStartTimestamp } }

/-- The `// Mode` block of `updateAfParameter`: on a focus-mode change, reset
the AF parameters to defaults, adopt the new mode (operation mode `auto` for
the continuous modes), and clear the trigger state. -/
def afModeStep (s : Intel3AParameter) (p : AiqParameter) : Intel3AParameter :=
  if s.mAfMode ≠ p.afMode then
    -- Reset af parameter
    let s := initAfParameter s
    let s := { s with mAfMode := p.afMode }
    let s :=
      if s.mAfMode = AfMode.CONTINUOUS_PICTURE ∨ s.mAfMode = AfMode.CONTINUOUS_VIDEO then
        { s with mAfParams := { s.mAfParams with focus_mode := IaAfOperationMode.auto } }
      else s
    { s with
      mAfTrigger := AfTrigger.IDLE
      mAfForceLock := false
      mDuringAfTriggerScan := false }
  else s

/-- The `// Trigger` block of `updateAfParameter`: clear the per-frame
new-search flag, act on a rising edge of START or CANCEL, and store the
request's trigger. -/
def afTriggerStep (s : Intel3AParameter) (p : AiqParameter) : Intel3AParameter :=
  let s := { s with mAfParams := { s.mAfParams with trigger_new_search := false } }
  let s :=
    if s.mAfTrigger ≠ AfTrigger.START ∧ p.afTrigger = AfTrigger.START then
      updateAfParameterForAfTriggerStart s
    else if s.mAfTrigger ≠ AfTrigger.CANCEL ∧ p.afTrigger = AfTrigger.CANCEL then
      updateAfParameterForAfTriggerCancel s
    else s
  { s with mAfTrigger := p.afTrigger }

/-- The `// Region` block of `updateAfParameter`: zero the focus rectangle,
then apply the request's latest focus region if it has positive area. -/
def afRegionStep (s : Intel3AParameter) (p : AiqParameter) : Intel3AParameter :=
  let s := { s with mAfParams := { s.mAfParams with
      focus_rect := { left := 0, top := 0, right := 0, bottom := 0 } } }
  match p.afRegions.getLast? with
  | some window =>
      if window.right > window.left ∧ window.bottom > window.top then
        let window := convertToIaWindow (frameCoordOf p) window
        { s with mAfParams := { s.mAfParams with focus_rect := rectOfWindow window } }
      else s
  | none => s

/-- The `// Manual lens position` block of `updateAfParameter`. -/
def afManualStep (s : Intel3AParameter) (p : AiqParameter) : Intel3AParameter :=
  if s.mAfMode = AfMode.OFF then
    let s := { s with mAfParams := { s.mAfParams with
        focus_mode := IaAfOperationMode.manual
        -- Set AIQ manual action to 'none' by default
        manual_focus_parameters := { s.mAfParams.manual_focus_parameters with
          manual_focus_action := IaManualFocusAction.action_none } } }
    -- Clamp focus distance between [0.0, minFocusDistance].
    let focusDistance :=
      if p.focusDistance > p.minFocusDistance then p.minFocusDistance
      else if p.focusDistance < 0 then 0
      else p.focusDistance
    let s :=
      if focusDistance ≠ 0 then
        -- The focusDistance value from app is diopters, so focusInMm = 1 / focusDistance
        { s with mAfParams := { s.mAfParams with
            manual_focus_parameters := { s.mAfParams.manual_focus_parameters with
              manual_focus_action := IaManualFocusAction.action_set_distance
              manual_focus_distance := truncQ (1000 * (1 / focusDistance)) } } }
      else
        -- 0.0f focus distance means infinity
        { s with mAfParams := { s.mAfParams with
            focus_mode := IaAfOperationMode.infinity
            manual_focus_parameters := { s.mAfParams.manual_focus_parameters with
              manual_focus_distance := 0 } } }
    s
  else
    { s with mAfParams := { s.mAfParams with
        manual_focus_parameters :=
          { manual_focus_action := IaManualFocusAction.action_none
            manual_focus_distance := 0
            manual_lens_position := 0 } } }

/-- The frame-use assignment of `updateAfParameter` (between the mode and
trigger blocks). -/
def afFrameUseStep (s : Intel3AParameter) (p : AiqParameter) : Intel3AParameter :=
  { s with mAfParams := { s.mAfParams with
      frame_use := convertFrameUsageToIaFrameUsage p.frameUsage } }

/-- `Intel3AParameter::updateAfParameter`: lens data, mode handling,
frame use, trigger handling, region handling, manual lens position. -/
def updateAfParameter (s : Intel3AParameter) (p : AiqParameter) : Intel3AParameter :=
  afManualStep
    (afRegionStep (afTriggerStep (afFrameUseStep (afModeStep (afLensStep s p) p) p) p) p) p

/-- `Intel3AParameter::fillAfTriggerResult`: consume the engine's reported
scan status while force-locked. -/
def fillAfTriggerResult (s : Intel3AParameter) (afResults : Option CcaAfResults) :
    Intel3AParameter :=
  match afResults with
  | none => s
  | some r =>
      if !s.mAfForceLock then s
      else
        -- Check the result of autofocus triggered by user
        match s.mAfMode with
        | AfMode.CONTINUOUS_PICTURE | AfMode.AUTO | AfMode.MACRO =>
            -- Lock AF after current scan
            { s with mAfForceLock :=
                r.status ≠ IaAfStatus.local_search ∧ r.status ≠ IaAfStatus.extended_search }
        | _ => s

/-! ## AWB update (`updateAwbParameter`) -/

/-- The tick-rate switch shared verbatim by the AE and AWB convergence
sections (`CONVERGE_MID → 30`, `CONVERGE_LOW → 60`, `CONVERGE_NORMAL`/default
`→ 1`). -/
def convergeSpeedToTicks : ConvergeSpeed → ℤ
  | ConvergeSpeed.MID => 30
  | ConvergeSpeed.LOW => 60
  | ConvergeSpeed.NORMAL => 1

/-- `Intel3AParameter::updateAwbParameter`: clear both manual flags, select
the AWB branch from the request's AWB mode, capture the gain shift, and run
the convergence-speed section.  Note: as in the source, the tick-rate switch
of the non-AIQ branch reads `param.aeConvergeSpeed`. -/
def updateAwbParameter (s : Intel3AParameter) (p : AiqParameter) : Intel3AParameter :=
  let s := { s with mUseManualAwbGain := false, mUseManualColorMatrix := false }
  let s :=
    match p.awbMode with
    | AwbMode.INCANDESCENT =>
        { s with mAwbParams := { s.mAwbParams with
            scene_mode := IaAwbOperationMode.incandescent } }
    | AwbMode.FLUORESCENT =>
        { s with mAwbParams := { s.mAwbParams with
            scene_mode := IaAwbOperationMode.fluorescent } }
    | AwbMode.DAYLIGHT =>
        { s with mAwbParams := { s.mAwbParams with
            scene_mode := IaAwbOperationMode.daylight } }
    | AwbMode.FULL_OVERCAST =>
        { s with mAwbParams := { s.mAwbParams with
            scene_mode := IaAwbOperationMode.fully_overcast } }
    | AwbMode.PARTLY_OVERCAST =>
        { s with mAwbParams := { s.mAwbParams with
            scene_mode := IaAwbOperationMode.partly_overcast } }
    | AwbMode.SUNSET =>
        { s with mAwbParams := { s.mAwbParams with
            scene_mode := IaAwbOperationMode.sunset } }
    | AwbMode.VIDEO_CONFERENCE =>
        { s with mAwbParams := { s.mAwbParams with
            scene_mode := IaAwbOperationMode.video_conference } }
    | AwbMode.MANUAL_CCT_RANGE =>
        { s with mAwbParams := { s.mAwbParams with
            scene_mode := IaAwbOperationMode.manual_cct_range
            manual_cct_range_min := truncQ (min p.cctRange.min p.cctRange.max)
            manual_cct_range_max := truncQ (max p.cctRange.min p.cctRange.max) } }
    | AwbMode.MANUAL_WHITE_POINT =>
        let iaCoord := convertToIaCoordinate (frameCoordOf p) p.whitePoint
        { s with mAwbParams := { s.mAwbParams with
            scene_mode := IaAwbOperationMode.manual_white
            manual_white_coordinate := { x := iaCoord.x, y := iaCoord.y } } }
    | AwbMode.MANUAL_GAIN =>
        { s with
          mAwbParams := { s.mAwbParams with scene_mode := IaAwbOperationMode.auto }
          mManualGains := p.awbManualGain
          mUseManualAwbGain := true }
    | AwbMode.MANUAL_COLOR_TRANSFORM =>
        { s with
          mAwbParams := { s.mAwbParams with scene_mode := IaAwbOperationMode.auto }
          mUseManualColorMatrix := true
          mColorMatrix := p.manualColorMatrix
          mColorGains := p.manualColorGains }
    | _ =>
        { s with mAwbParams := { s.mAwbParams with
            scene_mode := IaAwbOperationMode.auto } }
  let s := { s with mAwbGainShift := p.awbGainShift }
  if p.awbConvergeSpeedMode = ConvergeSpeedMode.AIQ then
    { s with
      mAwbPerTicks := 1
      mAwbParams := { s.mAwbParams with
        manual_convergence_time := convertSpeedModeToTime p.awbConvergeSpeed } }
  else
    { s with
      mAwbParams := { s.mAwbParams with manual_convergence_time := -1 }
      mAwbPerTicks := convergeSpeedToTicks p.aeConvergeSpeed }

/-! ## AE update (`updateAeParameter` and its manual-override helpers) -/

open Real in
/-- The dB-to-linear conversion `pow(10, gain_dB / 20)` used for the manual
analog gain and the ISO conversion. -/
noncomputable def dbToLinear (g : ℚ) : ℝ := (10 : ℝ) ^ ((g : ℝ) / 20)

/-- `Intel3AParameter::convertdBGainToISO`: linear gain times the sensor's
base ISO. -/
noncomputable def convertdBGainToISO (sensitivityGain : ℚ) (baseIso : ℤ) : ℝ :=
  dbToLinear sensitivityGain * (baseIso : ℝ)

/-- Truncation toward zero of a real, as C's cast from a floating value to an
integer. -/
noncomputable def truncR (x : ℝ) : ℤ := if 0 ≤ x then ⌊x⌋ else ⌈x⌉

/-- The effective exposure-time range of `setAeManualLimits`: the local
`range` after the requested range has been clipped against the platform
range (when the platform query succeeded), or taken verbatim (when it
failed), or the platform/sentinel range when no valid range was requested. -/
def effectiveExposureTimeRange (pf : Platform) (p : AiqParameter) : CamRange :=
  let range := pf.aeExposureTimeRange.getD { min := -1, max := -1 }
  if p.exposureTimeRange.min > 0 ∧ p.exposureTimeRange.max ≥ p.exposureTimeRange.min then
    if pf.aeExposureTimeRange.isSome then
      { min := CLIP p.exposureTimeRange.min range.max range.min
        max := CLIP p.exposureTimeRange.max range.max range.min }
    else
      p.exposureTimeRange
  else range

/-- The effective gain range of `setAeManualLimits`: the local `gainRange`
after the requested sensitivity-gain range has been clipped against the
platform gain range (when available), or taken verbatim, or the
platform/sentinel range. -/
def effectiveGainRange (pf : Platform) (p : AiqParameter) : CamRange :=
  let gainRange := pf.aeGainRange.getD { min := -1, max := -1 }
  if p.sensitivityGainRange.min ≥ 0 ∧
      p.sensitivityGainRange.max ≥ p.sensitivityGainRange.min then
    if pf.aeGainRange.isSome then
      { min := CLIP p.sensitivityGainRange.min gainRange.max gainRange.min
        max := CLIP p.sensitivityGainRange.max gainRange.max gainRange.min }
    else
      p.sensitivityGainRange
  else gainRange

open Classical in
/-- The ISO-limit section of `setAeManualLimits`: the pair written into
`manual_iso_min` / `manual_iso_max`.  The section runs only when the
effective gain range is valid, the CCA handle is non-null (a null handle
returns from the function, which at this point is equivalent to skipping the
section) and `getCMC` succeeded; the converted bounds are written only when
both fit below `INT_MAX`, otherwise the sentinels remain. -/
noncomputable def isoLimits (pf : Platform) (p : AiqParameter) : ℤ × ℤ :=
  let gainRange := effectiveGainRange pf p
  if gainRange.min ≥ 0 ∧ gainRange.max ≥ gainRange.min then
    match pf.cca with
    | some (some cmc) =>
        let isoMin := convertdBGainToISO gainRange.min cmc.base_iso
        let isoMax := convertdBGainToISO gainRange.max cmc.base_iso
        if isoMin ≤ (INT_MAX : ℝ) ∧ isoMax ≤ (INT_MAX : ℝ) then
          (truncR isoMin, truncR isoMax)
        else (-1, -1)
    | _ => (-1, -1)
  else (-1, -1)

/-- `Intel3AParameter::setAeManualLimits`: reset the exposure-time and ISO
limits to the sentinel, derive the frame-time bounds from the FPS range (or
single FPS), the exposure-time bounds from the effective exposure-time
range, and the ISO bounds from the effective gain range via the base-ISO
conversion. -/
noncomputable def setAeManualLimits (pf : Platform) (s : Intel3AParameter)
    (p : AiqParameter) : Intel3AParameter :=
  let limit := s.mAeParams.manual_limits
  let limit := { limit with
    manual_exposure_time_max := -1
    manual_exposure_time_min := -1
    manual_iso_min := -1
    manual_iso_max := -1 }
  let limit :=
    if p.aeFpsRange.min > 1/100 ∧ p.aeFpsRange.max ≥ p.aeFpsRange.min then
      { limit with
        manual_frame_time_us_max := truncQ (1000000 / p.aeFpsRange.min)
        manual_frame_time_us_min := truncQ (1000000 / p.aeFpsRange.max) }
    else if p.fps > 1/100 then
      { limit with
        manual_frame_time_us_max := truncQ (1000000 / p.fps)
        manual_frame_time_us_min := truncQ (1000000 / p.fps) }
    else limit
  let range := effectiveExposureTimeRange pf p
  let limit := { limit with
    manual_exposure_time_min := truncQ range.min
    manual_exposure_time_max := truncQ range.max }
  let iso := isoLimits pf p
  let limit := { limit with
    manual_iso_min := iso.1
    manual_iso_max := iso.2 }
  { s with mAeParams := { s.mAeParams with manual_limits := limit } }

/-- The applied manual exposure time of `setManualExposure`: the requested
time clipped to the platform exposure-time range when that query succeeds
(the C cast back into the `int64_t` local truncates). -/
def effectiveManualExpTime (pf : Platform) (p : AiqParameter) : ℤ :=
  match pf.aeExposureTimeRange with
  | some range => truncQ (CLIP (p.manualExpTimeUs : ℚ) range.max range.min)
  | none => p.manualExpTimeUs

/-- `Intel3AParameter::setManualExposure`: applied only for a positive
requested time and a non-ISO distribution priority; all sub-exposure slots
before the last are set to -1 and the last receives the (possibly clipped)
time. -/
def setManualExposure (pf : Platform) (s : Intel3AParameter) (p : AiqParameter) :
    Intel3AParameter :=
  if p.manualExpTimeUs ≤ 0 ∨ p.aeDistributionPriority = AeDistributionPriority.ISO then
    s
  else
    let manualExpTimeUs := effectiveManualExpTime pf p
    let n := s.mAeParams.num_exposures
    let arr := writeSlots s.mAeParams.manual_exposure_time_us (n - 1) (-1)
    let arr := fun i => if i = n - 1 then manualExpTimeUs else arr i
    { s with mAeParams := { s.mAeParams with manual_exposure_time_us := arr } }

/-- The applied manual gain of `setManualGain`: the requested dB gain clipped
to the platform gain range when that query succeeds. -/
def effectiveManualGain (pf : Platform) (p : AiqParameter) : ℚ :=
  match pf.aeGainRange with
  | some gainRange => CLIP p.manualGain gainRange.max gainRange.min
  | none => p.manualGain

/-- `Intel3AParameter::setManualGain`: applied only for a non-negative
requested dB gain and a non-shutter distribution priority; the (possibly
clipped) gain is converted to linear analog gain and written to every
sub-exposure slot. -/
noncomputable def setManualGain (pf : Platform) (s : Intel3AParameter) (p : AiqParameter) :
    Intel3AParameter :=
  if p.manualGain < 0 ∨ p.aeDistributionPriority = AeDistributionPriority.SHUTTER then
    s
  else
    let manualGain := effectiveManualGain pf p
    -- Convert db to sensor analog gain.
    { s with mAeParams := { s.mAeParams with
        manual_analog_gain :=
          writeSlots s.mAeParams.manual_analog_gain s.mAeParams.num_exposures
            (dbToLinear manualGain) } }

/-- `Intel3AParameter::setManualIso`: applied only for a positive requested
ISO and a non-shutter distribution priority; the value is written to every
sub-exposure slot of the manual-ISO array. -/
def setManualIso (s : Intel3AParameter) (p : AiqParameter) : Intel3AParameter :=
  if p.manualIso ≤ 0 ∨ p.aeDistributionPriority = AeDistributionPriority.SHUTTER then
    s
  else
    -- Will overwrite manual_analog_gain
    { s with mAeParams := { s.mAeParams with
        manual_iso :=
          writeSlots s.mAeParams.manual_iso s.mAeParams.num_exposures p.manualIso } }

/-- The `switch (param.antibandingMode)` of `updateAeParameter`. -/
def flickerOfAntibanding : AntibandingMode → IaFlickerReduction
  | AntibandingMode.AUTO => IaFlickerReduction.auto
  | AntibandingMode.HZ50 => IaFlickerReduction.fifty_hz
  | AntibandingMode.HZ60 => IaFlickerReduction.sixty_hz
  | AntibandingMode.OFF => IaFlickerReduction.off

/-- The `switch (param.aeDistributionPriority)` of `updateAeParameter`. -/
def iaDistributionOf : AeDistributionPriority → IaAeDistributionPriority
  | AeDistributionPriority.AUTO => IaAeDistributionPriority.dist_auto
  | AeDistributionPriority.SHUTTER => IaAeDistributionPriority.dist_shutter
  | AeDistributionPriority.ISO => IaAeDistributionPriority.dist_iso
  | AeDistributionPriority.APERTURE => IaAeDistributionPriority.dist_aperture

/-- The convergence-speed section of `updateAeParameter`. -/
def aeConvergeStep (s : Intel3AParameter) (p : AiqParameter) : Intel3AParameter :=
  if p.aeConvergeSpeedMode = ConvergeSpeedMode.AIQ then
    { s with
      mAePerTicks := 1
      mAeParams := { s.mAeParams with
        manual_convergence_time := convertSpeedModeToTime p.aeConvergeSpeed } }
  else
    { s with
      mAeParams := { s.mAeParams with manual_convergence_time := -1 }
      mAePerTicks := convergeSpeedToTicks p.aeConvergeSpeed }

/-- The exposure-coordinate section of `updateAeParameter`: clear the
coordinate, then set it from the latest AE metering window when BLC area
mode is on and the window has positive area. -/
def aeCoordStep (s : Intel3AParameter) (p : AiqParameter) : Intel3AParameter :=
  let s := { s with mAeParams := { s.mAeParams with
      exposure_coordinate := { x := 0, y := 0 } } }
  if p.blcAreaMode = BlcAreaMode.ON then
    match p.aeRegions.getLast? with
    | some window =>
        if window.right > window.left ∧ window.bottom > window.top then
          let coordinate : CamCoordinate :=
            { x := window.left + (window.right - window.left) / 2
              y := window.top + (window.bottom - window.top) / 2 }
          let coordinate := convertToIaCoordinate (frameCoordOf p) coordinate
          { s with mAeParams := { s.mAeParams with
              exposure_coordinate := { x := coordinate.x, y := coordinate.y } } }
        else s
    | none => s
  else s

/-- The head of `updateAeParameter`: frame use and exposure count. -/
def aeBaseStep (pf : Platform) (s : Intel3AParameter) (p : AiqParameter) :
    Intel3AParameter :=
  { s with mAeParams := { s.mAeParams with
      frame_use := convertFrameUsageToIaFrameUsage p.frameUsage
      num_exposures := pf.exposureNum } }

/-- The flicker-mode and distribution-priority switches of
`updateAeParameter`, together with the `memset` clears of the three manual
arrays. -/
def aeFixedStep (s : Intel3AParameter) (p : AiqParameter) : Intel3AParameter :=
  { s with mAeParams := { s.mAeParams with
      flicker_reduction_mode := flickerOfAntibanding p.antibandingMode
      exposure_distribution_priority := iaDistributionOf p.aeDistributionPriority
      manual_exposure_time_us := fun _ => 0
      manual_analog_gain := fun _ => 0
      manual_iso := fun _ => 0 } }

/-- The manual-override section of `updateAeParameter`: in manual AE mode
apply gain, then ISO, then exposure; otherwise take the EV shift. -/
noncomputable def aeManualStep (pf : Platform) (s : Intel3AParameter) (p : AiqParameter) :
    Intel3AParameter :=
  if p.aeMode = AeMode.MANUAL then
    setManualExposure pf (setManualIso (setManualGain pf s p) p) p
  else
    { s with mAeParams := { s.mAeParams with ev_shift := p.evShift } }

/-- `Intel3AParameter::updateAeParameter`: frame use and exposure count,
manual limits, flicker mode, distribution priority, a clear of all three
manual arrays, the manual overrides (in manual AE mode) or the EV shift,
the convergence-speed section, and the exposure-coordinate section. -/
noncomputable def updateAeParameter (pf : Platform) (s : Intel3AParameter)
    (p : AiqParameter) : Intel3AParameter :=
  aeCoordStep
    (aeConvergeStep
      (aeManualStep pf (aeFixedStep (setAeManualLimits pf (aeBaseStep pf s p) p) p) p) p) p

/-- `Intel3AParameter::updateParameter`: AE, then AWB, then AF. -/
noncomputable def updateParameter (pf : Platform) (s : Intel3AParameter)
    (p : AiqParameter) : Intel3AParameter :=
  updateAfParameter (updateAwbParameter (updateAeParameter pf s p) p) p

/-! ## Concrete baseline inputs used by the witnesses -/

/-- A neutral baseline request: automatic modes, no manual values, no
regions, idle trigger. -/
def param0 : AiqParameter :=
  { frameUsage := FrameUsage.PREVIEW
    aeMode := AeMode.AUTO
    aeDistributionPriority := AeDistributionPriority.AUTO
    manualExpTimeUs := 0
    manualGain := -1
    manualIso := 0
    evShift := 0
    antibandingMode := AntibandingMode.AUTO
    fps := 0
    aeFpsRange := { min := -1, max := -1 }
    exposureTimeRange := { min := -1, max := -1 }
    sensitivityGainRange := { min := -1, max := -1 }
    aeConvergeSpeedMode := ConvergeSpeedMode.AIQ
    aeConvergeSpeed := ConvergeSpeed.NORMAL
    blcAreaMode := BlcAreaMode.OFF
    aeRegions := []
    resolution := { width := 1920, height := 1080 }
    awbMode := AwbMode.AUTO
    cctRange := { min := 0, max := 0 }
    whitePoint := { x := 0, y := 0 }
    awbManualGain := { r_gain := 0, g_gain := 0, b_gain := 0 }
    awbGainShift := { r_gain := 0, g_gain := 0, b_gain := 0 }
    manualColorMatrix := { m := fun _ _ => 0 }
    manualColorGains := { color_gains_rggb := fun _ => 0 }
    awbConvergeSpeedMode := ConvergeSpeedMode.AIQ
    awbConvergeSpeed := ConvergeSpeed.NORMAL
    afMode := AfMode.AUTO
    afTrigger := AfTrigger.IDLE
    afRegions := []
    lensPosition := 0
    lensMovementStartTimestamp := 0
    focusDistance := 0
    minFocusDistance := 0 }

/-- A neutral baseline platform snapshot: no supported ranges, a single
exposure per frame, no CCA handle. -/
def platform0 : Platform :=
  { aeExposureTimeRange := none
    aeGainRange := none
    exposureNum := 1
    cca := none }

/-! ## Field-preservation helper lemmas -/

theorem aeConvergeStep_manual_fields (s : Intel3AParameter) (p : AiqParameter) :
    (aeConvergeStep s p).mAeParams.manual_exposure_time_us =
      s.mAeParams.manual_exposure_time_us ∧
    (aeConvergeStep s p).mAeParams.manual_analog_gain = s.mAeParams.manual_analog_gain ∧
    (aeConvergeStep s p).mAeParams.manual_iso = s.mAeParams.manual_iso ∧
    (aeConvergeStep s p).mAeParams.manual_limits = s.mAeParams.manual_limits ∧
    (aeConvergeStep s p).mAeParams.num_exposures = s.mAeParams.num_exposures := by
  unfold aeConvergeStep
  split <;> exact ⟨rfl, rfl, rfl, rfl, rfl⟩

theorem aeCoordStep_manual_fields (s : Intel3AParameter) (p : AiqParameter) :
    (aeCoordStep s p).mAeParams.manual_exposure_time_us =
      s.mAeParams.manual_exposure_time_us ∧
    (aeCoordStep s p).mAeParams.manual_analog_gain = s.mAeParams.manual_analog_gain ∧
    (aeCoordStep s p).mAeParams.manual_iso = s.mAeParams.manual_iso ∧
    (aeCoordStep s p).mAeParams.manual_limits = s.mAeParams.manual_limits ∧
    (aeCoordStep s p).mAeParams.num_exposures = s.mAeParams.num_exposures := by
  unfold aeCoordStep
  repeat' split
  all_goals exact ⟨rfl, rfl, rfl, rfl, rfl⟩

theorem setManualGain_other_fields (pf : Platform) (s : Intel3AParameter)
    (p : AiqParameter) :
    (setManualGain pf s p).mAeParams.manual_exposure_time_us =
      s.mAeParams.manual_exposure_time_us ∧
    (setManualGain pf s p).mAeParams.manual_iso = s.mAeParams.manual_iso ∧
    (setManualGain pf s p).mAeParams.manual_limits = s.mAeParams.manual_limits ∧
    (setManualGain pf s p).mAeParams.num_exposures = s.mAeParams.num_exposures := by
  unfold setManualGain
  split <;> exact ⟨rfl, rfl, rfl, rfl⟩

theorem setManualIso_other_fields (s : Intel3AParameter) (p : AiqParameter) :
    (setManualIso s p).mAeParams.manual_exposure_time_us =
      s.mAeParams.manual_exposure_time_us ∧
    (setManualIso s p).mAeParams.manual_analog_gain = s.mAeParams.manual_analog_gain ∧
    (setManualIso s p).mAeParams.manual_limits = s.mAeParams.manual_limits ∧
    (setManualIso s p).mAeParams.num_exposures = s.mAeParams.num_exposures := by
  unfold setManualIso
  split <;> exact ⟨rfl, rfl, rfl, rfl⟩

theorem setManualExposure_other_fields (pf : Platform) (s : Intel3AParameter)
    (p : AiqParameter) :
    (setManualExposure pf s p).mAeParams.manual_analog_gain =
      s.mAeParams.manual_analog_gain ∧
    (setManualExposure pf s p).mAeParams.manual_iso = s.mAeParams.manual_iso ∧
    (setManualExposure pf s p).mAeParams.manual_limits = s.mAeParams.manual_limits ∧
    (setManualExposure pf s p).mAeParams.num_exposures = s.mAeParams.num_exposures := by
  unfold setManualExposure
  split <;> exact ⟨rfl, rfl, rfl, rfl⟩

theorem afLensStep_flags (s : Intel3AParameter) (p : AiqParameter) :
    (afLensStep s p).mUseManualAwbGain = s.mUseManualAwbGain ∧
    (afLensStep s p).mUseManualColorMatrix = s.mUseManualColorMatrix := ⟨rfl, rfl⟩

theorem afFrameUseStep_flags (s : Intel3AParameter) (p : AiqParameter) :
    (afFrameUseStep s p).mUseManualAwbGain = s.mUseManualAwbGain ∧
    (afFrameUseStep s p).mUseManualColorMatrix = s.mUseManualColorMatrix := ⟨rfl, rfl⟩

theorem afModeStep_flags (s : Intel3AParameter) (p : AiqParameter) :
    (afModeStep s p).mUseManualAwbGain = s.mUseManualAwbGain ∧
    (afModeStep s p).mUseManualColorMatrix = s.mUseManualColorMatrix := by
  simp only [afModeStep, initAfParameter]
  repeat' split
  all_goals exact ⟨rfl, rfl⟩

theorem afTriggerStart_flags (s : Intel3AParameter) :
    (updateAfParameterForAfTriggerStart s).mUseManualAwbGain = s.mUseManualAwbGain ∧
    (updateAfParameterForAfTriggerStart s).mUseManualColorMatrix =
      s.mUseManualColorMatrix := by
  simp only [updateAfParameterForAfTriggerStart]
  repeat' split
  all_goals exact ⟨rfl, rfl⟩

theorem afTriggerCancel_flags (s : Intel3AParameter) :
    (updateAfParameterForAfTriggerCancel s).mUseManualAwbGain = s.mUseManualAwbGain ∧
    (updateAfParameterForAfTriggerCancel s).mUseManualColorMatrix =
      s.mUseManualColorMatrix := by
  simp only [updateAfParameterForAfTriggerCancel]
  repeat' split
  all_goals exact ⟨rfl, rfl⟩

theorem afTriggerStep_flags (s : Intel3AParameter) (p : AiqParameter) :
    (afTriggerStep s p).mUseManualAwbGain = s.mUseManualAwbGain ∧
    (afTriggerStep s p).mUseManualColorMatrix = s.mUseManualColorMatrix := by
  simp only [afTriggerStep]
  repeat' split
  all_goals simp [afTriggerStart_flags, afTriggerCancel_flags]

theorem afRegionStep_flags (s : Intel3AParameter) (p : AiqParameter) :
    (afRegionStep s p).mUseManualAwbGain = s.mUseManualAwbGain ∧
    (afRegionStep s p).mUseManualColorMatrix = s.mUseManualColorMatrix := by
  simp only [afRegionStep]
  repeat' split
  all_goals exact ⟨rfl, rfl⟩

theorem afManualStep_flags (s : Intel3AParameter) (p : AiqParameter) :
    (afManualStep s p).mUseManualAwbGain = s.mUseManualAwbGain ∧
    (afManualStep s p).mUseManualColorMatrix = s.mUseManualColorMatrix := by
  simp only [afManualStep]
  repeat' split
  all_goals exact ⟨rfl, rfl⟩

theorem updateAfParameter_preserves_awb_flags (s : Intel3AParameter) (p : AiqParameter) :
    (updateAfParameter s p).mUseManualAwbGain = s.mUseManualAwbGain ∧
    (updateAfParameter s p).mUseManualColorMatrix = s.mUseManualColorMatrix := by
  simp [updateAfParameter, afManualStep_flags, afRegionStep_flags, afTriggerStep_flags,
    afFrameUseStep_flags, afModeStep_flags, afLensStep_flags]

theorem aeBaseStep_flags (pf : Platform) (s : Intel3AParameter) (p : AiqParameter) :
    (aeBaseStep pf s p).mUseManualAwbGain = s.mUseManualAwbGain ∧
    (aeBaseStep pf s p).mUseManualColorMatrix = s.mUseManualColorMatrix := ⟨rfl, rfl⟩

theorem setAeManualLimits_flags (pf : Platform) (s : Intel3AParameter) (p : AiqParameter) :
    (setAeManualLimits pf s p).mUseManualAwbGain = s.mUseManualAwbGain ∧
    (setAeManualLimits pf s p).mUseManualColorMatrix = s.mUseManualColorMatrix := ⟨rfl, rfl⟩

theorem aeFixedStep_flags (s : Intel3AParameter) (p : AiqParameter) :
    (aeFixedStep s p).mUseManualAwbGain = s.mUseManualAwbGain ∧
    (aeFixedStep s p).mUseManualColorMatrix = s.mUseManualColorMatrix := ⟨rfl, rfl⟩

theorem aeManualStep_flags (pf : Platform) (s : Intel3AParameter) (p : AiqParameter) :
    (aeManualStep pf s p).mUseManualAwbGain = s.mUseManualAwbGain ∧
    (aeManualStep pf s p).mUseManualColorMatrix = s.mUseManualColorMatrix := by
  simp only [aeManualStep, setManualExposure, setManualIso, setManualGain]
  repeat' split
  all_goals exact ⟨rfl, rfl⟩

theorem aeConvergeStep_flags (s : Intel3AParameter) (p : AiqParameter) :
    (aeConvergeStep s p).mUseManualAwbGain = s.mUseManualAwbGain ∧
    (aeConvergeStep s p).mUseManualColorMatrix = s.mUseManualColorMatrix := by
  simp only [aeConvergeStep]
  repeat' split
  all_goals exact ⟨rfl, rfl⟩

theorem aeCoordStep_flags (s : Intel3AParameter) (p : AiqParameter) :
    (aeCoordStep s p).mUseManualAwbGain = s.mUseManualAwbGain ∧
    (aeCoordStep s p).mUseManualColorMatrix = s.mUseManualColorMatrix := by
  simp only [aeCoordStep]
  repeat' split
  all_goals exact ⟨rfl, rfl⟩

theorem updateAeParameter_preserves_awb_flags (pf : Platform) (s : Intel3AParameter)
    (p : AiqParameter) :
    (updateAeParameter pf s p).mUseManualAwbGain = s.mUseManualAwbGain ∧
    (updateAeParameter pf s p).mUseManualColorMatrix = s.mUseManualColorMatrix := by
  simp [updateAeParameter, aeCoordStep_flags, aeConvergeStep_flags, aeManualStep_flags,
    aeFixedStep_flags, setAeManualLimits_flags, aeBaseStep_flags]

theorem updateAwbParameter_flags (s : Intel3AParameter) (p : AiqParameter) :
    (updateAwbParameter s p).mUseManualAwbGain = decide (p.awbMode = AwbMode.MANUAL_GAIN) ∧
    (updateAwbParameter s p).mUseManualColorMatrix =
      decide (p.awbMode = AwbMode.MANUAL_COLOR_TRANSFORM) := by
  cases hm : p.awbMode <;>
    simp only [updateAwbParameter, hm] <;>
    (repeat' split) <;> simp

theorem aeManualStep_limits_num (pf : Platform) (s : Intel3AParameter) (p : AiqParameter) :
    (aeManualStep pf s p).mAeParams.manual_limits = s.mAeParams.manual_limits ∧
    (aeManualStep pf s p).mAeParams.num_exposures = s.mAeParams.num_exposures := by
  simp only [aeManualStep]
  split
  · simp [setManualExposure_other_fields, setManualIso_other_fields,
      setManualGain_other_fields]
  · exact ⟨rfl, rfl⟩

/-- The manual-analog-gain array written by `updateAeParameter` in manual AE
mode when the gain guard passes: every sub-exposure slot holds the linear
conversion of the effective (clipped) manual gain. -/
theorem updateAe_manual_gain_char (pf : Platform) (s : Intel3AParameter) (p : AiqParameter)
    (hmode : p.aeMode = AeMode.MANUAL)
    (hg : ¬(p.manualGain < 0 ∨ p.aeDistributionPriority = AeDistributionPriority.SHUTTER)) :
    ∀ i, i < pf.exposureNum →
      (updateAeParameter pf s p).mAeParams.manual_analog_gain i =
        dbToLinear (effectiveManualGain pf p) := by
  intro i hi
  simp only [updateAeParameter, aeCoordStep_manual_fields, aeConvergeStep_manual_fields]
  simp only [aeManualStep, hmode, reduceIte]
  simp only [setManualExposure_other_fields, setManualIso_other_fields]
  simp only [setManualGain]
  split
  · exact absurd (by assumption) hg
  · have hn : (aeFixedStep (setAeManualLimits pf (aeBaseStep pf s p) p) p).mAeParams.num_exposures
        = pf.exposureNum := rfl
    simp [writeSlots, hn, hi]

/-- The manual-ISO array written by `updateAeParameter` in manual AE mode
when the ISO guard passes: every sub-exposure slot holds the requested
manual ISO. -/
theorem updateAe_manual_iso_char (pf : Platform) (s : Intel3AParameter) (p : AiqParameter)
    (hmode : p.aeMode = AeMode.MANUAL)
    (hiso : ¬(p.manualIso ≤ 0 ∨ p.aeDistributionPriority = AeDistributionPriority.SHUTTER)) :
    ∀ i, i < pf.exposureNum →
      (updateAeParameter pf s p).mAeParams.manual_iso i = p.manualIso := by
  intro i hi
  simp only [updateAeParameter, aeCoordStep_manual_fields, aeConvergeStep_manual_fields]
  simp only [aeManualStep, hmode, reduceIte]
  simp only [setManualExposure_other_fields]
  simp only [setManualIso]
  split
  · exact absurd (by assumption) hiso
  · have hn : (setManualGain pf (aeFixedStep (setAeManualLimits pf (aeBaseStep pf s p) p) p)
        p).mAeParams.num_exposures = pf.exposureNum :=
      (setManualGain_other_fields pf _ p).2.2.2
    simp [writeSlots, hn, hi]

/-- The manual-exposure-time array written by `updateAeParameter` in manual
AE mode when the exposure guard passes: the last sub-exposure slot holds the
effective (clipped) manual exposure time and every earlier slot holds -1. -/
theorem updateAe_manual_exposure_char (pf : Platform) (s : Intel3AParameter)
    (p : AiqParameter) (hmode : p.aeMode = AeMode.MANUAL)
    (hexp : ¬(p.manualExpTimeUs ≤ 0 ∨
      p.aeDistributionPriority = AeDistributionPriority.ISO)) :
    (updateAeParameter pf s p).mAeParams.manual_exposure_time_us (pf.exposureNum - 1) =
      effectiveManualExpTime pf p ∧
    ∀ i, i < pf.exposureNum - 1 →
      (updateAeParameter pf s p).mAeParams.manual_exposure_time_us i = -1 := by
  simp only [updateAeParameter, aeCoordStep_manual_fields, aeConvergeStep_manual_fields]
  simp only [aeManualStep, hmode, reduceIte]
  simp only [setManualExposure]
  split
  · exact absurd (by assumption) hexp
  · have hn : (setManualIso (setManualGain pf
        (aeFixedStep (setAeManualLimits pf (aeBaseStep pf s p) p) p) p)
        p).mAeParams.num_exposures = pf.exposureNum := by
      rw [(setManualIso_other_fields _ p).2.2.2, (setManualGain_other_fields pf _ p).2.2.2]
      rfl
    constructor
    · simp [writeSlots, hn]
    · intro i hi
      simp [writeSlots, hn, hi, Nat.ne_of_lt hi]

/-- In manual AE mode, when the exposure guard fails the manual
exposure-time array keeps the per-frame clear (all zero). -/
theorem updateAe_manual_exposure_skipped (pf : Platform) (s : Intel3AParameter)
    (p : AiqParameter) (hmode : p.aeMode = AeMode.MANUAL)
    (hexp : p.manualExpTimeUs ≤ 0 ∨ p.aeDistributionPriority = AeDistributionPriority.ISO) :
    ∀ i, (updateAeParameter pf s p).mAeParams.manual_exposure_time_us i = 0 := by
  intro i
  simp only [updateAeParameter, aeCoordStep_manual_fields, aeConvergeStep_manual_fields]
  simp only [aeManualStep, hmode, reduceIte]
  simp only [setManualExposure, hexp, reduceIte]
  have he : (setManualIso (setManualGain pf
      (aeFixedStep (setAeManualLimits pf (aeBaseStep pf s p) p) p) p)
      p).mAeParams.manual_exposure_time_us = fun _ => (0 : ℤ) := by
    rw [(setManualIso_other_fields _ p).1, (setManualGain_other_fields pf _ p).1]
    rfl
  exact congrFun he i

/-- In manual AE mode, when the gain guard fails (negative requested gain or
shutter-priority) the manual analog-gain array keeps the per-frame clear
(all zero). -/
theorem updateAe_manual_gain_skipped (pf : Platform) (s : Intel3AParameter)
    (p : AiqParameter) (hmode : p.aeMode = AeMode.MANUAL)
    (hg : p.manualGain < 0 ∨ p.aeDistributionPriority = AeDistributionPriority.SHUTTER) :
    ∀ i, (updateAeParameter pf s p).mAeParams.manual_analog_gain i = 0 := by
  intro i
  simp only [updateAeParameter, aeCoordStep_manual_fields, aeConvergeStep_manual_fields]
  simp only [aeManualStep, hmode, reduceIte]
  simp only [setManualExposure_other_fields, setManualIso_other_fields]
  simp only [setManualGain, hg, reduceIte]
  rfl

/-- The manual limits after `updateAeParameter` are exactly those computed
by `setAeManualLimits` (later sections do not touch them). -/
theorem updateAe_limits_char (pf : Platform) (s : Intel3AParameter) (p : AiqParameter) :
    (updateAeParameter pf s p).mAeParams.manual_limits =
      (setAeManualLimits pf (aeBaseStep pf s p) p).mAeParams.manual_limits := by
  simp only [updateAeParameter, aeCoordStep_manual_fields, aeConvergeStep_manual_fields,
    aeManualStep_limits_num]
  rfl

theorem dbToLinear_zero : dbToLinear 0 = 1 := by
  simp [dbToLinear]

theorem dbToLinear_pos (g : ℚ) : 0 < dbToLinear g :=
  Real.rpow_pos_of_pos (by norm_num) _

theorem convertdBGainToISO_nonneg (g : ℚ) (b : ℤ) (hb : 0 ≤ b) :
    0 ≤ convertdBGainToISO g b :=
  mul_nonneg (dbToLinear_pos g).le (by exact_mod_cast hb)

theorem truncR_nonneg (x : ℝ) (hx : 0 ≤ x) : 0 ≤ truncR x := by
  unfold truncR
  rw [if_pos hx]
  exact Int.floor_nonneg.mpr hx

theorem afManualStep_focus_rect (s : Intel3AParameter) (p : AiqParameter) :
    (afManualStep s p).mAfParams.focus_rect = s.mAfParams.focus_rect := by
  simp only [afManualStep]
  repeat' split
  all_goals rfl

/-! ## Claims -/

/-- C3: For every prior AF state, if the request's focus mode differs from the
stored focus mode, the mode-handling block of the AF update resets
`forceLock` to false, `duringTriggerScan` to false, the trigger to IDLE, and
the focus operation mode to its mode-specific default (`auto` for
CONTINUOUS-PICTURE/CONTINUOUS-VIDEO, `infinity` otherwise), invalidating any
in-flight trigger. -/
theorem afModeChange_resets_af_state (s : Intel3AParameter) (p : AiqParameter)
    (h : s.mAfMode ≠ p.afMode) :
    (afModeStep s p).mAfForceLock = false ∧
    (afModeStep s p).mDuringAfTriggerScan = false ∧
    (afModeStep s p).mAfTrigger = AfTrigger.IDLE ∧
    (afModeStep s p).mAfMode = p.afMode ∧
    (afModeStep s p).mAfParams.focus_mode =
      (if p.afMode = AfMode.CONTINUOUS_PICTURE ∨ p.afMode = AfMode.CONTINUOUS_VIDEO
        then IaAfOperationMode.auto else IaAfOperationMode.infinity) := by
  cases hm : p.afMode <;> (rw [hm] at h; simp [afModeStep, initAfParameter, h, hm])

/-- Witness for C3: a concrete mode switch from AUTO to CONTINUOUS_VIDEO. -/
theorem afModeChange_resets_af_state_witness :
    initState.mAfMode ≠ ({ param0 with afMode := AfMode.CONTINUOUS_VIDEO } :
      AiqParameter).afMode ∧
    ((afModeStep initState { param0 with afMode := AfMode.CONTINUOUS_VIDEO }).mAfForceLock
        = false ∧
      (afModeStep initState
        { param0 with afMode := AfMode.CONTINUOUS_VIDEO }).mDuringAfTriggerScan = false ∧
      (afModeStep initState
        { param0 with afMode := AfMode.CONTINUOUS_VIDEO }).mAfTrigger = AfTrigger.IDLE ∧
      (afModeStep initState
        { param0 with afMode := AfMode.CONTINUOUS_VIDEO }).mAfMode =
        ({ param0 with afMode := AfMode.CONTINUOUS_VIDEO } : AiqParameter).afMode ∧
      (afModeStep initState
        { param0 with afMode := AfMode.CONTINUOUS_VIDEO }).mAfParams.focus_mode =
        (if ({ param0 with afMode := AfMode.CONTINUOUS_VIDEO } : AiqParameter).afMode =
              AfMode.CONTINUOUS_PICTURE ∨
            ({ param0 with afMode := AfMode.CONTINUOUS_VIDEO } : AiqParameter).afMode =
              AfMode.CONTINUOUS_VIDEO
          then IaAfOperationMode.auto else IaAfOperationMode.infinity)) :=
  ⟨by decide, afModeChange_resets_af_state initState _ (by decide)⟩

/-- C4: On a rising-edge START trigger (stored trigger ≠ START and request
trigger = START), `duringTriggerScan` is set and `forceLock` cleared; for
CONTINUOUS-VIDEO `forceLock` is then set within the same call; for
AUTO/MACRO `forceLock` stays false, the operation mode becomes auto-scan and
the new-search flag is set; for CONTINUOUS-PICTURE the trigger handling
changes neither the operation mode nor the new-search flag (the flag keeps
its per-frame default, false). -/
theorem afTriggerStart_rising_edge (s : Intel3AParameter) (p : AiqParameter)
    (h1 : s.mAfTrigger ≠ AfTrigger.START) (h2 : p.afTrigger = AfTrigger.START) :
    (afTriggerStep s p).mDuringAfTriggerScan = true ∧
    (s.mAfMode = AfMode.CONTINUOUS_VIDEO → (afTriggerStep s p).mAfForceLock = true) ∧
    ((s.mAfMode = AfMode.AUTO ∨ s.mAfMode = AfMode.MACRO) →
      (afTriggerStep s p).mAfForceLock = false ∧
      (afTriggerStep s p).mAfParams.focus_mode = IaAfOperationMode.auto ∧
      (afTriggerStep s p).mAfParams.trigger_new_search = true) ∧
    (s.mAfMode = AfMode.CONTINUOUS_PICTURE →
      (afTriggerStep s p).mAfForceLock = false ∧
      (afTriggerStep s p).mAfParams.focus_mode = s.mAfParams.focus_mode ∧
      (afTriggerStep s p).mAfParams.trigger_new_search = false) := by
  cases hm : s.mAfMode <;>
    simp [afTriggerStep, updateAfParameterForAfTriggerStart, h1, h2, hm]

/-- Witness for C4: a concrete rising-edge START in CONTINUOUS_VIDEO mode. -/
theorem afTriggerStart_rising_edge_witness :
    ({ initState with mAfMode := AfMode.CONTINUOUS_VIDEO } :
        Intel3AParameter).mAfTrigger ≠ AfTrigger.START ∧
    ({ param0 with afTrigger := AfTrigger.START } : AiqParameter).afTrigger =
      AfTrigger.START ∧
    ((afTriggerStep { initState with mAfMode := AfMode.CONTINUOUS_VIDEO }
        { param0 with afTrigger := AfTrigger.START }).mDuringAfTriggerScan = true ∧
      (({ initState with mAfMode := AfMode.CONTINUOUS_VIDEO } :
          Intel3AParameter).mAfMode = AfMode.CONTINUOUS_VIDEO →
        (afTriggerStep { initState with mAfMode := AfMode.CONTINUOUS_VIDEO }
          { param0 with afTrigger := AfTrigger.START }).mAfForceLock = true) ∧
      ((({ initState with mAfMode := AfMode.CONTINUOUS_VIDEO } :
          Intel3AParameter).mAfMode = AfMode.AUTO ∨
        ({ initState with mAfMode := AfMode.CONTINUOUS_VIDEO } :
          Intel3AParameter).mAfMode = AfMode.MACRO) →
        (afTriggerStep { initState with mAfMode := AfMode.CONTINUOUS_VIDEO }
          { param0 with afTrigger := AfTrigger.START }).mAfForceLock = false ∧
        (afTriggerStep { initState with mAfMode := AfMode.CONTINUOUS_VIDEO }
          { param0 with afTrigger := AfTrigger.START }).mAfParams.focus_mode =
          IaAfOperationMode.auto ∧
        (afTriggerStep { initState with mAfMode := AfMode.CONTINUOUS_VIDEO }
          { param0 with afTrigger := AfTrigger.START }).mAfParams.trigger_new_search =
          true) ∧
      (({ initState with mAfMode := AfMode.CONTINUOUS_VIDEO } :
          Intel3AParameter).mAfMode = AfMode.CONTINUOUS_PICTURE →
        (afTriggerStep { initState with mAfMode := AfMode.CONTINUOUS_VIDEO }
          { param0 with afTrigger := AfTrigger.START }).mAfForceLock = false ∧
        (afTriggerStep { initState with mAfMode := AfMode.CONTINUOUS_VIDEO }
          { param0 with afTrigger := AfTrigger.START }).mAfParams.focus_mode =
          ({ initState with mAfMode := AfMode.CONTINUOUS_VIDEO } :
            Intel3AParameter).mAfParams.focus_mode ∧
        (afTriggerStep { initState with mAfMode := AfMode.CONTINUOUS_VIDEO }
          { param0 with afTrigger := AfTrigger.START }).mAfParams.trigger_new_search =
          false)) :=
  ⟨by decide, by decide,
    afTriggerStart_rising_edge _ _ (by decide) (by decide)⟩

/-- The concrete state for the C5 counterexample: force-locked, AF mode
AUTO. -/
def stateC5 : Intel3AParameter :=
  { initState with mAfForceLock := true, mAfMode := AfMode.AUTO }

/-- The concrete engine result for the C5 counterexample: a settled scan
status (neither local search nor extended search). -/
def afResultsC5 : CcaAfResults := { status := IaAfStatus.success }

/-- C5 counterexample: with `forceLock = true`, focus mode AUTO and a
reported status that is *neither* local search nor extended search, the code
*keeps* `forceLock = true`, whereas the claim states that `forceLock` is
cleared exactly in this case. -/
theorem fillAfTriggerResult_settled_keeps_lock_cex :
    afResultsC5.status ≠ IaAfStatus.local_search ∧
    afResultsC5.status ≠ IaAfStatus.extended_search ∧
    stateC5.mAfForceLock = true ∧
    (fillAfTriggerResult stateC5 (some afResultsC5)).mAfForceLock = true := by
  refine ⟨by decide, by decide, rfl, rfl⟩

/-- C5 (amended): `fillAfTriggerResult` changes no state when the result
pointer is null or `forceLock` is false; when `forceLock` is true and the
focus mode is AUTO, MACRO or CONTINUOUS-PICTURE it updates only `forceLock`,
clearing it exactly when the reported scan status IS local search or
extended search (keeping the lock once the scan has settled); for every
other focus mode it changes no state. -/
theorem fillAfTriggerResult_lock_policy (s : Intel3AParameter) (r : CcaAfResults) :
    fillAfTriggerResult s none = s ∧
    (s.mAfForceLock = false → fillAfTriggerResult s (some r) = s) ∧
    (s.mAfForceLock = true →
      ((s.mAfMode = AfMode.AUTO ∨ s.mAfMode = AfMode.MACRO ∨
          s.mAfMode = AfMode.CONTINUOUS_PICTURE) →
        fillAfTriggerResult s (some r) =
          { s with mAfForceLock :=
              decide (r.status ≠ IaAfStatus.local_search ∧
                r.status ≠ IaAfStatus.extended_search) } ∧
        ((fillAfTriggerResult s (some r)).mAfForceLock = false ↔
          (r.status = IaAfStatus.local_search ∨ r.status = IaAfStatus.extended_search))) ∧
      ((s.mAfMode = AfMode.OFF ∨ s.mAfMode = AfMode.CONTINUOUS_VIDEO) →
        fillAfTriggerResult s (some r) = s)) := by
  cases hl : s.mAfForceLock <;> cases hm : s.mAfMode <;>
    simp [fillAfTriggerResult, hl, hm] <;>
    cases r.status <;> simp

/-- Witness for C5: a force-locked MACRO state with a local-search status;
the lock is cleared. -/
theorem fillAfTriggerResult_lock_policy_witness :
    ({ initState with mAfForceLock := true, mAfMode := AfMode.MACRO } :
      Intel3AParameter).mAfForceLock = true ∧
    (fillAfTriggerResult { initState with mAfForceLock := true, mAfMode := AfMode.MACRO }
      (some { status := IaAfStatus.local_search })).mAfForceLock = false := by
  have h := (fillAfTriggerResult_lock_policy
    { initState with mAfForceLock := true, mAfMode := AfMode.MACRO }
    { status := IaAfStatus.local_search }).2.2 rfl
  exact ⟨rfl, ((h.1 (Or.inr (Or.inl rfl))).2).mpr (Or.inl rfl)⟩

/-- C9: After every `updateParameter` call, the manual-AWB-gain flag and the
manual-color-transform flag are never both true. -/
theorem awb_manual_flags_mutually_exclusive (pf : Platform) (s : Intel3AParameter)
    (p : AiqParameter) :
    ((updateParameter pf s p).mUseManualAwbGain &&
      (updateParameter pf s p).mUseManualColorMatrix) = false := by
  unfold updateParameter
  rw [(updateAfParameter_preserves_awb_flags _ p).1,
    (updateAfParameter_preserves_awb_flags _ p).2,
    (updateAwbParameter_flags _ p).1, (updateAwbParameter_flags _ p).2]
  cases p.awbMode <;> simp

/-- The request exhibiting C1's divergence: engine-controlled AWB
converge-speed mode, AWB preference NORMAL, AE preference MID. -/
def paramC1 : AiqParameter :=
  { param0 with
    awbConvergeSpeedMode := ConvergeSpeedMode.HAL
    awbConvergeSpeed := ConvergeSpeed.NORMAL
    aeConvergeSpeed := ConvergeSpeed.MID }

/-- C1 (code behaviour at the failing input): in engine-controlled AWB
converge-speed mode the convergence time is set to -1 as claimed, but the
AWB tick-rate is derived from the *AE* converge-speed preference: with the
AWB preference NORMAL (claimed tick-rate 1) and the AE preference MID, the
code produces tick-rate 30. -/
theorem awbTicks_follow_ae_speed_at_divergence :
    paramC1.awbConvergeSpeed = ConvergeSpeed.NORMAL ∧
    paramC1.aeConvergeSpeed = ConvergeSpeed.MID ∧
    (updateAwbParameter initState paramC1).mAwbPerTicks = 30 ∧
    (updateAwbParameter initState paramC1).mAwbParams.manual_convergence_time = -1 :=
  ⟨rfl, rfl, rfl, rfl⟩

/-- The C2 request: manual AE mode, manual gain 0 dB and manual ISO 100
both requested, with auto distribution priority (both permitted). -/
def paramC2 : AiqParameter :=
  { param0 with aeMode := AeMode.MANUAL, manualGain := 0, manualIso := 100 }

/-- C2 counterexample: with manual gain 0 dB and manual ISO 100 both
requested and permitted, after the update the analog-gain slot holds
`10^(0/20) = 1`, not the ISO value — the manual ISO does not overwrite the
analog-gain array (it is written to the separate manual-ISO array). -/
theorem manualIso_not_into_gain_array_cex :
    (updateAeParameter platform0 initState paramC2).mAeParams.manual_analog_gain 0 ≠
      (paramC2.manualIso : ℝ) ∧
    (updateAeParameter platform0 initState paramC2).mAeParams.manual_iso 0 =
      paramC2.manualIso := by
  constructor
  · have h := updateAe_manual_gain_char platform0 initState paramC2 rfl (by decide) 0
      (by decide)
    rw [h]
    have he : effectiveManualGain platform0 paramC2 = 0 := rfl
    rw [he, dbToLinear_zero]
    norm_num [paramC2, param0]
  · exact updateAe_manual_iso_char platform0 initState paramC2 rfl (by decide) 0 (by decide)

/-- C2 (amended): in manual AE mode, if the requested manual ISO is positive
and the exposure-distribution priority is not shutter-priority, the manual
ISO value is written to the manual-ISO array for every sub-exposure slot
(the engine then gives it precedence over the analog-gain array; the
analog-gain array itself is not overwritten). -/
theorem manualIso_fills_iso_array (pf : Platform) (s : Intel3AParameter)
    (p : AiqParameter) (hmode : p.aeMode = AeMode.MANUAL) (hiso : 0 < p.manualIso)
    (hpr : p.aeDistributionPriority ≠ AeDistributionPriority.SHUTTER) :
    ∀ i, i < pf.exposureNum →
      (updateAeParameter pf s p).mAeParams.manual_iso i = p.manualIso :=
  updateAe_manual_iso_char pf s p hmode (not_or.mpr ⟨not_le.mpr hiso, hpr⟩)

/-- Witness for C2 at a two-exposure platform: both slots receive ISO 100. -/
theorem manualIso_fills_iso_array_witness :
    paramC2.aeMode = AeMode.MANUAL ∧ 0 < paramC2.manualIso ∧
    paramC2.aeDistributionPriority ≠ AeDistributionPriority.SHUTTER ∧
    ∀ i, i < ({ platform0 with exposureNum := 2 } : Platform).exposureNum →
      (updateAeParameter { platform0 with exposureNum := 2 } initState
        paramC2).mAeParams.manual_iso i = paramC2.manualIso :=
  ⟨rfl, by decide, by decide,
    manualIso_fills_iso_array { platform0 with exposureNum := 2 } initState paramC2
      rfl (by decide) (by decide)⟩

/-- The C6 platform: a supported exposure-time range of [100, 30000] µs and
two exposures per frame. -/
def platformC6 : Platform :=
  { platform0 with
    aeExposureTimeRange := some { min := 100, max := 30000 }
    exposureNum := 2 }

/-- The C6 request: manual AE mode with a requested manual exposure time of
50000 µs (above the platform maximum). -/
def paramC6 : AiqParameter :=
  { param0 with aeMode := AeMode.MANUAL, manualExpTimeUs := 50000 }

/-- C6: In manual AE mode, the requested manual exposure time is applied only
if positive and the distribution priority is not ISO-priority; when applied
it is clipped to the platform exposure-time range (when available), written
to the last sub-exposure slot, and every preceding slot is set to -1;
otherwise the manual exposure-time array is left all zero for the frame. -/
theorem manualExposure_policy (pf : Platform) (s : Intel3AParameter) (p : AiqParameter)
    (hmode : p.aeMode = AeMode.MANUAL) :
    ((0 < p.manualExpTimeUs ∧ p.aeDistributionPriority ≠ AeDistributionPriority.ISO) →
      (updateAeParameter pf s p).mAeParams.manual_exposure_time_us (pf.exposureNum - 1) =
        effectiveManualExpTime pf p ∧
      ∀ i, i < pf.exposureNum - 1 →
        (updateAeParameter pf s p).mAeParams.manual_exposure_time_us i = -1) ∧
    ((p.manualExpTimeUs ≤ 0 ∨ p.aeDistributionPriority = AeDistributionPriority.ISO) →
      ∀ i, (updateAeParameter pf s p).mAeParams.manual_exposure_time_us i = 0) := by
  constructor
  · intro h
    exact updateAe_manual_exposure_char pf s p hmode
      (not_or.mpr ⟨not_le.mpr h.1, h.2⟩)
  · intro h
    exact updateAe_manual_exposure_skipped pf s p hmode h

/-- Witness for C6: 50000 µs is clipped to the platform maximum 30000 µs,
written to the last of two slots; the first slot is set to -1. -/
theorem manualExposure_policy_witness :
    paramC6.aeMode = AeMode.MANUAL ∧
    0 < paramC6.manualExpTimeUs ∧
    paramC6.aeDistributionPriority ≠ AeDistributionPriority.ISO ∧
    effectiveManualExpTime platformC6 paramC6 = 30000 ∧
    (updateAeParameter platformC6 initState paramC6).mAeParams.manual_exposure_time_us
      (platformC6.exposureNum - 1) = effectiveManualExpTime platformC6 paramC6 ∧
    ∀ i, i < platformC6.exposureNum - 1 →
      (updateAeParameter platformC6 initState paramC6).mAeParams.manual_exposure_time_us
        i = -1 := by
  have h := (manualExposure_policy platformC6 initState paramC6 rfl).1
    ⟨by decide, by decide⟩
  exact ⟨rfl, by decide, by decide, by decide, h.1, h.2⟩

/-- The C7 platform: a supported gain range of [0, 10] dB. -/
def platformC7 : Platform :=
  { platform0 with aeGainRange := some { min := 0, max := 10 } }

/-- The C7 request: manual AE mode with a requested manual gain of 12 dB
(above the platform maximum). -/
def paramC7 : AiqParameter :=
  { param0 with aeMode := AeMode.MANUAL, manualGain := 12 }

/-- C7: In manual AE mode, the requested manual gain (dB) is applied only if
non-negative and the distribution priority is not shutter-priority: when
applied it is first clipped to the platform gain range (when available),
then converted to linear analog gain as `10^(gain_dB/20)` (`dbToLinear`) and
written to every sub-exposure slot; when the guard fails (negative gain or
shutter-priority) the analog-gain array is left untouched at its per-frame
cleared all-zero state. -/
theorem manualGain_policy (pf : Platform) (s : Intel3AParameter) (p : AiqParameter)
    (hmode : p.aeMode = AeMode.MANUAL) :
    ((0 ≤ p.manualGain ∧ p.aeDistributionPriority ≠ AeDistributionPriority.SHUTTER) →
      ∀ i, i < pf.exposureNum →
        (updateAeParameter pf s p).mAeParams.manual_analog_gain i =
          dbToLinear (effectiveManualGain pf p)) ∧
    ((p.manualGain < 0 ∨ p.aeDistributionPriority = AeDistributionPriority.SHUTTER) →
      ∀ i, (updateAeParameter pf s p).mAeParams.manual_analog_gain i = 0) := by
  constructor
  · intro h
    exact updateAe_manual_gain_char pf s p hmode
      (not_or.mpr ⟨not_lt.mpr h.1, h.2⟩)
  · intro h
    exact updateAe_manual_gain_skipped pf s p hmode h

/-- Witness for C7, both halves: a 12 dB request against the [0, 10] dB
platform range is clipped to 10 dB and every slot receives `10^(10/20)`;
a negative (−1 dB) request leaves the analog-gain array all zero. -/
theorem manualGain_policy_witness :
    paramC7.aeMode = AeMode.MANUAL ∧
    (0 ≤ paramC7.manualGain ∧
      paramC7.aeDistributionPriority ≠ AeDistributionPriority.SHUTTER) ∧
    effectiveManualGain platformC7 paramC7 = 10 ∧
    (∀ i, i < platformC7.exposureNum →
      (updateAeParameter platformC7 initState paramC7).mAeParams.manual_analog_gain i =
        dbToLinear (effectiveManualGain platformC7 paramC7)) ∧
    ({ param0 with aeMode := AeMode.MANUAL } : AiqParameter).manualGain < 0 ∧
    ∀ i, (updateAeParameter platform0 initState
      { param0 with aeMode := AeMode.MANUAL }).mAeParams.manual_analog_gain i = 0 :=
  ⟨rfl, ⟨by decide, by decide⟩, by decide,
    (manualGain_policy platformC7 initState paramC7 rfl).1 ⟨by decide, by decide⟩,
    by decide,
    (manualGain_policy platform0 initState
      { param0 with aeMode := AeMode.MANUAL } rfl).2 (Or.inl (by decide))⟩

/-- C8: When computing the AE manual limits, if converting an effective
gain-range bound from dB to ISO exceeds the 32-bit signed integer range,
both ISO limits are left at the sentinel -1; and (for a non-negative sensor
base ISO) no partial ISO bound is ever written — either both bounds are
written or both stay -1. -/
theorem isoLimits_overflow_left_unset (pf : Platform) (s : Intel3AParameter)
    (p : AiqParameter) :
    (∀ cmc : CcaCmc, pf.cca = some (some cmc) →
      ((INT_MAX : ℝ) < convertdBGainToISO (effectiveGainRange pf p).min cmc.base_iso ∨
        (INT_MAX : ℝ) < convertdBGainToISO (effectiveGainRange pf p).max cmc.base_iso) →
      (updateAeParameter pf s p).mAeParams.manual_limits.manual_iso_min = -1 ∧
      (updateAeParameter pf s p).mAeParams.manual_limits.manual_iso_max = -1) ∧
    ((∀ cmc : CcaCmc, pf.cca = some (some cmc) → 0 ≤ cmc.base_iso) →
      ((updateAeParameter pf s p).mAeParams.manual_limits.manual_iso_min = -1 ↔
        (updateAeParameter pf s p).mAeParams.manual_limits.manual_iso_max = -1)) := by
  have hmin : (updateAeParameter pf s p).mAeParams.manual_limits.manual_iso_min =
      (isoLimits pf p).1 := by rw [updateAe_limits_char]; rfl
  have hmax : (updateAeParameter pf s p).mAeParams.manual_limits.manual_iso_max =
      (isoLimits pf p).2 := by rw [updateAe_limits_char]; rfl
  rw [hmin, hmax]
  constructor
  · intro cmc hc hov
    have hno : ¬((convertdBGainToISO (effectiveGainRange pf p).min cmc.base_iso ≤
          (INT_MAX : ℝ)) ∧
        (convertdBGainToISO (effectiveGainRange pf p).max cmc.base_iso ≤
          (INT_MAX : ℝ))) := by
      rcases hov with h | h
      · exact fun hab => absurd hab.1 (not_le.mpr h)
      · exact fun hab => absurd hab.2 (not_le.mpr h)
    simp only [isoLimits, hc]
    simp [hno]
  · intro hbase
    rcases hcc : pf.cca with _ | (_ | cmc)
    · simp [isoLimits, hcc]
    · simp [isoLimits, hcc]
    · have hb := hbase cmc hcc
      have h1 := truncR_nonneg _ (convertdBGainToISO_nonneg
        (effectiveGainRange pf p).min cmc.base_iso hb)
      have h2 := truncR_nonneg _ (convertdBGainToISO_nonneg
        (effectiveGainRange pf p).max cmc.base_iso hb)
      by_cases hv : (effectiveGainRange pf p).min ≥ 0 ∧
          (effectiveGainRange pf p).max ≥ (effectiveGainRange pf p).min
      · by_cases hfit :
            convertdBGainToISO (effectiveGainRange pf p).min cmc.base_iso ≤ (INT_MAX : ℝ) ∧
            convertdBGainToISO (effectiveGainRange pf p).max cmc.base_iso ≤ (INT_MAX : ℝ)
        · simp only [isoLimits, hcc]
          simp only [hv, hfit, if_true, ite_true]
          constructor <;> intro hcon <;> exfalso <;> simp at hcon <;> omega
        · simp [isoLimits, hcc, hv, hfit]
      · simp [isoLimits, hcc, hv]

/-- The C8 platform: a supported gain range of [0, 0] dB and a CMC whose
base ISO is 10^10, so that the dB-to-ISO conversion overflows the 32-bit
signed range. -/
def platformC8 : Platform :=
  { platform0 with
    aeGainRange := some { min := 0, max := 0 }
    cca := some (some { base_iso := 10000000000 }) }

/-- Witness for C8: with gain range [0, 0] dB and base ISO 10^10, the
converted bound `10^(0/20) * 10^10 = 10^10` exceeds INT_MAX and both ISO
limits remain -1. -/
theorem isoLimits_overflow_left_unset_witness :
    platformC8.cca = some (some { base_iso := 10000000000 }) ∧
    (INT_MAX : ℝ) <
      convertdBGainToISO (effectiveGainRange platformC8 param0).min 10000000000 ∧
    ((updateAeParameter platformC8 initState param0).mAeParams.manual_limits.manual_iso_min
        = -1 ∧
      (updateAeParameter platformC8 initState
        param0).mAeParams.manual_limits.manual_iso_max = -1) := by
  have hmin0 : (effectiveGainRange platformC8 param0).min = 0 := by decide
  have hov : (INT_MAX : ℝ) <
      convertdBGainToISO (effectiveGainRange platformC8 param0).min 10000000000 := by
    rw [hmin0]
    unfold convertdBGainToISO
    rw [dbToLinear_zero, one_mul]
    norm_num [INT_MAX]
  exact ⟨rfl, hov, (isoLimits_overflow_left_unset platformC8 initState param0).1
    { base_iso := 10000000000 } rfl (Or.inl hov)⟩

/-- C10: A focus-region (AF) or AE-metering-region rectangle from the request
is applied (remapped into engine coordinates) only if it has strictly
positive width and height in application coordinates; when the request
carries no such positive-area rectangle, the engine region field after the
update holds the default all-zero region (one of the two outcomes the claim
allows: the code re-clears the region each frame before conditionally
applying a new one). -/
theorem regions_applied_only_if_positive (pf : Platform) (s : Intel3AParameter)
    (p : AiqParameter) :
    ((∀ w : CamWindow, p.afRegions.getLast? = some w →
        ¬(w.right > w.left ∧ w.bottom > w.top)) →
      (updateAfParameter s p).mAfParams.focus_rect =
        { left := 0, top := 0, right := 0, bottom := 0 }) ∧
    (∀ w : CamWindow, p.afRegions.getLast? = some w →
      w.right > w.left → w.bottom > w.top →
      (updateAfParameter s p).mAfParams.focus_rect =
        rectOfWindow (convertToIaWindow (frameCoordOf p) w)) ∧
    ((∀ w : CamWindow, p.aeRegions.getLast? = some w →
        ¬(w.right > w.left ∧ w.bottom > w.top)) →
      (updateAeParameter pf s p).mAeParams.exposure_coordinate = { x := 0, y := 0 }) ∧
    (∀ w : CamWindow, p.blcAreaMode = BlcAreaMode.ON → p.aeRegions.getLast? = some w →
      w.right > w.left → w.bottom > w.top →
      (updateAeParameter pf s p).mAeParams.exposure_coordinate =
        convertToIaCoordinate (frameCoordOf p)
          { x := w.left + (w.right - w.left) / 2, y := w.top + (w.bottom - w.top) / 2 }) := by
  refine ⟨?_, ?_, ?_, ?_⟩
  · intro hno
    unfold updateAfParameter
    rw [afManualStep_focus_rect]
    cases hl : p.afRegions.getLast? with
    | none => simp [afRegionStep, hl]
    | some w =>
      have hw := hno w hl
      simp [afRegionStep, hl, hw]
  · intro w hw h1 h2
    unfold updateAfParameter
    rw [afManualStep_focus_rect]
    simp [afRegionStep, hw, h1, h2]
  · intro hno
    unfold updateAeParameter
    cases hb : p.blcAreaMode with
    | OFF => simp [aeCoordStep, hb]
    | ON =>
      cases hl : p.aeRegions.getLast? with
      | none => simp [aeCoordStep, hb, hl]
      | some w =>
        have hw := hno w hl
        simp [aeCoordStep, hb, hl, hw]
  · intro w hblc hw h1 h2
    unfold updateAeParameter
    simp [aeCoordStep, hblc, hw, h1, h2]

/-- The C10 request: one positive-area AF focus region, no AE region. -/
def paramC10 : AiqParameter :=
  { param0 with afRegions := [{ left := 0, top := 0, right := 100, bottom := 100 }] }

/-- Witness for C10: the positive-area AF rectangle is applied (remapped);
the absent AE region leaves the exposure coordinate at the default zero. -/
theorem regions_applied_only_if_positive_witness :
    paramC10.afRegions.getLast? =
      some { left := 0, top := 0, right := 100, bottom := 100 } ∧
    ({ left := 0, top := 0, right := 100, bottom := 100 } : CamWindow).right >
      ({ left := 0, top := 0, right := 100, bottom := 100 } : CamWindow).left ∧
    ({ left := 0, top := 0, right := 100, bottom := 100 } : CamWindow).bottom >
      ({ left := 0, top := 0, right := 100, bottom := 100 } : CamWindow).top ∧
    (updateAfParameter initState paramC10).mAfParams.focus_rect =
      rectOfWindow (convertToIaWindow (frameCoordOf paramC10)
        { left := 0, top := 0, right := 100, bottom := 100 }) ∧
    (updateAeParameter platform0 initState paramC10).mAeParams.exposure_coordinate =
      { x := 0, y := 0 } :=
  ⟨rfl, by decide, by decide,
    (regions_applied_only_if_positive platform0 initState paramC10).2.1
      { left := 0, top := 0, right := 100, bottom := 100 } rfl (by decide) (by decide),
    (regions_applied_only_if_positive platform0 initState paramC10).2.2.1
      (fun w h => by simp [paramC10, param0] at h)⟩

end Icamera
